import Mathlib

set_option maxHeartbeats 1000000

/-!  Shallow embedding of the mini-CRM lead distribution service
     (mini_crm/models.py and mini_crm/main.py).  Machine state is the
     relational content of the five tables; each HTTP handler or helper
     becomes a pure function on that state.  The random draw consulted by
     the selection engine is passed in explicitly as a rational number. -/

/-- Row of table operators (models.py, class Operator). -/
structure Operator where
  id : Nat
  name : String
  is_active : Bool
  load_limit : Int
deriving DecidableEq, Repr

/-- Row of table sources (models.py, class Source). -/
structure Source where
  id : Nat
  name : String
  code : Option String
deriving DecidableEq, Repr

/-- Row of table operator_source_weights (models.py, class OperatorSourceWeight). -/
structure OperatorSourceWeight where
  id : Nat
  operator_id : Nat
  source_id : Nat
  weight : Int
deriving DecidableEq, Repr

/-- Row of table leads (models.py, class Lead). -/
structure Lead where
  id : Nat
  external_id : String
  name : Option String
deriving DecidableEq, Repr

/-- Contact status enumeration (models.py, class ContactStatus). -/
inductive ContactStatus where
  | active
  | closed
deriving DecidableEq, Repr

/-- Row of table contacts (models.py, class Contact). -/
structure Contact where
  id : Nat
  lead_id : Nat
  source_id : Nat
  operator_id : Option Nat
  status : ContactStatus
  created_at : Nat
  payload : Option String
deriving DecidableEq, Repr

/-- The whole persistent state: the five tables plus the id generators. -/
structure DB where
  operators : List Operator
  sources : List Source
  weights : List OperatorSourceWeight
  leads : List Lead
  contacts : List Contact
  nextLeadId : Nat
  nextContactId : Nat
deriving DecidableEq, Repr

/-- Python truthiness of an optional string value: None and the empty
    string are falsy, every other string is truthy. -/
def truthy : Option String → Bool
  | none => false
  | some s => s != ""

/-- Count of Contact rows with the given operator_id and status = active
    (main.py, the active_count query inside choose_operator_for_source). -/
def activeCount (db : DB) (opId : Nat) : Nat :=
  (db.contacts.filter
    (fun c => c.operator_id == some opId && c.status == ContactStatus.active)).length

/-- The weights query of choose_operator_for_source: weight rows for the
    source joined to their operator, keeping only active operators.  The
    inner join drops rows whose operator does not exist. -/
def weightRowsForSource (db : DB) (sid : Nat) : List (Operator × Int) :=
  db.weights.filterMap (fun w =>
    if w.source_id == sid then
      match db.operators.find? (fun o => o.id == w.operator_id) with
      | some op => if op.is_active then some (op, w.weight) else none
      | none => none
    else none)

/-- The candidate list built by the for-loop of choose_operator_for_source:
    rows with weight <= 0 are skipped, and an operator at or over its load
    limit is dropped. -/
def candidatesForSource (db : DB) (sid : Nat) : List (Operator × Int) :=
  (weightRowsForSource db sid).filter
    (fun p => decide (0 < p.2) && decide ((activeCount db p.1.id : Int) < p.1.load_limit))

/-- Sum of the weights of the first n candidates, as an exact rational. -/
def cumWeight (cands : List (Operator × Int)) (n : Nat) : ℚ :=
  ((cands.take n).map (fun p => (p.2 : ℚ))).sum

/-- total_weight of main.py line 209, as an exact rational. -/
def totalWeight (cands : List (Operator × Int)) : ℚ :=
  (cands.map (fun p => (p.2 : ℚ))).sum

/-- The accumulation loop of choose_operator_for_source (main.py lines
    211-215): starting from the running sum upto, return the first
    candidate with upto + weight >= r, or none when the loop exhausts. -/
def selectLoop : List (Operator × Int) → ℚ → ℚ → Option Operator
  | [], _, _ => none
  | (op, w) :: rest, upto, r =>
    if r ≤ upto + (w : ℚ) then some op else selectLoop rest (upto + (w : ℚ)) r

/-- choose_operator_for_source (main.py lines 174-217) with the random
    draw r injected.  Empty candidate set gives none; otherwise the loop
    result, falling back to the last candidate (candidates[-1][0]). -/
def chooseOperatorForSource (db : DB) (sid : Nat) (r : ℚ) : Option Operator :=
  if (candidatesForSource db sid).isEmpty then none
  else
    match selectLoop (candidatesForSource db sid) 0 r with
    | some op => some op
    | none => ((candidatesForSource db sid).getLast?).map Prod.fst

/-- In-place name update of the first lead carrying the given external id:
    the ORM mutates the row object returned by first(). -/
def setNameFirst : List Lead → String → Option String → List Lead
  | [], _, _ => []
  | l :: rest, eid, nm =>
    if l.external_id == eid then { l with name := nm } :: rest
    else l :: setNameFirst rest eid nm

/-- get_or_create_lead (main.py lines 150-171): look the lead up by
    external_id; if found, back-fill the name only when a truthy name is
    supplied and the stored name is falsy; if not found, insert a new
    lead. -/
def getOrCreateLead (db : DB) (eid : String) (nm : Option String) : Lead × DB :=
  match db.leads.find? (fun l => l.external_id == eid) with
  | some lead =>
    if truthy nm && !truthy lead.name then
      ({ lead with name := nm },
       { db with leads := setNameFirst db.leads eid nm })
    else (lead, db)
  | none =>
    let lead : Lead := { id := db.nextLeadId, external_id := eid, name := nm }
    (lead, { db with leads := db.leads ++ [lead], nextLeadId := db.nextLeadId + 1 })

/-- Commit of a lead insert with the UNIQUE constraint on
    leads.external_id (models.py line 40) enforced by the persistence
    layer: the insert is rejected when a row with that external_id already
    exists at commit time. -/
def insertLeadUnique (leads : List Lead) (lead : Lead) : Except String (List Lead) :=
  if leads.any (fun l => l.external_id == lead.external_id) then
    Except.error "UNIQUE constraint failed: leads.external_id"
  else Except.ok (leads ++ [lead])

/-- get_or_create_lead under a lead-creation race: interleaved lists the
    leads committed by a concurrent call between the lookup of this call
    and its own commit, so the uniqueness check at commit time runs
    against db.leads ++ interleaved.  The source wraps the commit in no
    exception handler (main.py lines 167-171 have no try/except), so a
    uniqueness violation propagates to the caller unchanged. -/
def getOrCreateLeadRaced (db : DB) (interleaved : List Lead) (eid : String)
    (nm : Option String) : Except String (Lead × DB) :=
  match db.leads.find? (fun l => l.external_id == eid) with
  | some lead =>
    if truthy nm && !truthy lead.name then
      Except.ok ({ lead with name := nm },
        { db with leads := setNameFirst db.leads eid nm })
    else Except.ok (lead, db)
  | none =>
    let lead : Lead := { id := db.nextLeadId, external_id := eid, name := nm }
    match insertLeadUnique (db.leads ++ interleaved) lead with
    | Except.error e => Except.error e
    | Except.ok leads2 =>
      Except.ok (lead, { db with leads := leads2, nextLeadId := db.nextLeadId + 1 })

/-- The Contact row inserted by create_contact (main.py lines 355-361):
    built over the state left by lead resolution, with the operator chosen
    by the selection engine on that state, status active, the current
    timestamp, and the payload stored verbatim. -/
def newContact (db : DB) (eid : String) (nm : Option String) (source : Source)
    (r : ℚ) (now : Nat) (payload : Option String) : Contact :=
  { id := (getOrCreateLead db eid nm).2.nextContactId
    lead_id := (getOrCreateLead db eid nm).1.id
    source_id := source.id
    operator_id := (chooseOperatorForSource (getOrCreateLead db eid nm).2 source.id r).map Operator.id
    status := ContactStatus.active
    created_at := now
    payload := payload }

/-- create_contact, the POST /contacts handler (main.py lines 334-365):
    check the source exists (404 otherwise, before any write), resolve the
    lead, ask the selection engine for an operator, insert the contact
    with status active and the payload stored verbatim. -/
def createContact (db : DB) (eid : String) (nm : Option String)
    (source_id : Nat) (payload : Option String) (r : ℚ) (now : Nat) :
    Except String Contact × DB :=
  match db.sources.find? (fun s => s.id == source_id) with
  | none => (Except.error "Source not found", db)
  | some source =>
    (Except.ok (newContact db eid nm source r now payload),
     { (getOrCreateLead db eid nm).2 with
        contacts := (getOrCreateLead db eid nm).2.contacts ++ [newContact db eid nm source r now payload]
        nextContactId := (getOrCreateLead db eid nm).2.nextContactId + 1 })

/-- In-place status overwrite of the first contact carrying the given id:
    the ORM mutates the row object returned by first(). -/
def setStatusFirst : List Contact → Nat → ContactStatus → List Contact
  | [], _, _ => []
  | c :: rest, cid, st =>
    if c.id == cid then { c with status := st } :: rest
    else c :: setStatusFirst rest cid st

/-- update_contact_status, the PATCH /contacts handler (main.py lines
    368-385): 404 when the contact does not exist, otherwise overwrite the
    status unconditionally. -/
def updateContactStatus (db : DB) (cid : Nat) (st : ContactStatus) :
    Except String Contact × DB :=
  match db.contacts.find? (fun c => c.id == cid) with
  | none => (Except.error "Contact not found", db)
  | some contact =>
    (Except.ok { contact with status := st },
     { db with contacts := setStatusFirst db.contacts cid st })

/-! ## Concrete states used by witnesses and counterexamples -/

/-- Operator A of the weighted-choice scenario: weight 1, active, far
    under its limit. -/
def opA : Operator := { id := 1, name := "A", is_active := true, load_limit := 10 }

/-- Operator B of the weighted-choice scenario: weight 3, active, far
    under its limit. -/
def opB : Operator := { id := 2, name := "B", is_active := true, load_limit := 10 }

/-- State for the weighted-choice scenario: source 1 with operators A
    (weight 1) and B (weight 3), no contact yet. -/
def exDB1 : DB :=
  { operators := [opA, opB]
    sources := [{ id := 1, name := "site", code := none }]
    weights := [{ id := 1, operator_id := 1, source_id := 1, weight := 1 },
                { id := 2, operator_id := 2, source_id := 1, weight := 3 }]
    leads := []
    contacts := []
    nextLeadId := 1
    nextContactId := 1 }

/-- The draw r = 2.5 of the weighted-choice scenario, in reduced form so
    that the kernel can evaluate comparisons on it. -/
def rDraw : ℚ := Rat.mk' 5 2 (by decide) (by decide)

/-- Operator C of the capacity-exclusion scenario: load_limit 1. -/
def opC : Operator := { id := 1, name := "C", is_active := true, load_limit := 1 }

/-- State for the capacity-exclusion scenario: the only weighted operator
    for source 1 has load_limit 1 and already holds one active contact. -/
def exDB2 : DB :=
  { operators := [opC]
    sources := [{ id := 1, name := "site", code := none }]
    weights := [{ id := 1, operator_id := 1, source_id := 1, weight := 2 }]
    leads := [{ id := 1, external_id := "u0", name := none }]
    contacts := [{ id := 1, lead_id := 1, source_id := 1, operator_id := some 1,
                   status := ContactStatus.active, created_at := 0, payload := none }]
    nextLeadId := 2
    nextContactId := 2 }

/-- A state with no rows at all; in particular source 5 does not exist. -/
def emptyDB : DB :=
  { operators := [], sources := [], weights := [], leads := [], contacts := []
    nextLeadId := 1, nextContactId := 1 }

/-- The lead committed by the winning concurrent call of the
    lead-creation race scenario. -/
def winnerLead : Lead := { id := 7, external_id := "u1", name := some "Winner" }

/-- State for the status-update scenario: one closed contact with id 1
    next to an unrelated contact with id 2. -/
def exDB3 : DB :=
  { operators := [opA]
    sources := [{ id := 1, name := "site", code := none }]
    weights := []
    leads := [{ id := 1, external_id := "u0", name := none }]
    contacts := [{ id := 1, lead_id := 1, source_id := 1, operator_id := some 1,
                   status := ContactStatus.closed, created_at := 3, payload := some "p" },
                 { id := 2, lead_id := 1, source_id := 1, operator_id := none,
                   status := ContactStatus.active, created_at := 4, payload := none }]
    nextLeadId := 2
    nextContactId := 3 }

/-- Eligibility of an operator for a source in a given state: active, a
    weight row for the source with strictly positive weight, and an
    active-contact count strictly below the load limit. -/
def Eligible (db : DB) (sid : Nat) (op : Operator) : Prop :=
  op.is_active = true ∧
  (∃ w ∈ db.weights, w.source_id = sid ∧ w.operator_id = op.id ∧ 0 < w.weight) ∧
  (activeCount db op.id : Int) < op.load_limit

theorem rDraw_eq_five_halves : rDraw = (5 : ℚ) / 2 := by
  rw [rDraw, Rat.mk'_eq_divInt, Rat.divInt_eq_div]; norm_num

/-! ## Helper lemmas about the selection loop -/

theorem cumWeight_zero (cands : List (Operator × Int)) : cumWeight cands 0 = 0 := by
  simp [cumWeight]

theorem cumWeight_cons (op : Operator) (w : Int) (rest : List (Operator × Int))
    (n : Nat) :
    cumWeight ((op, w) :: rest) (n + 1) = (w : ℚ) + cumWeight rest n := by
  simp [cumWeight, List.take_succ_cons]

/-- The accumulation loop returns the first candidate whose cumulative
    weight reaches the draw, for any starting running sum. -/
theorem selectLoop_first (cands : List (Operator × Int)) (upto r : ℚ) (i : Nat)
    (hi : i < cands.length)
    (hge : r ≤ upto + cumWeight cands (i + 1))
    (hlt : ∀ j, j < i → upto + cumWeight cands (j + 1) < r) :
    selectLoop cands upto r = some (cands.get ⟨i, hi⟩).1 := by
  induction cands generalizing upto i with
  | nil => simp at hi
  | cons hd rest ih =>
    obtain ⟨op, w⟩ := hd
    cases i with
    | zero =>
      have h1 : r ≤ upto + (w : ℚ) := by
        have := hge
        rw [cumWeight_cons, cumWeight_zero] at this
        linarith
      simp [selectLoop, h1]
    | succ j =>
      have h0 : upto + (w : ℚ) < r := by
        have := hlt 0 (Nat.succ_pos j)
        rw [cumWeight_cons, cumWeight_zero] at this
        linarith
      have hne : ¬ (r ≤ upto + (w : ℚ)) := not_le.mpr h0
      have hj : j < rest.length := by simpa using hi
      have hge2 : r ≤ (upto + (w : ℚ)) + cumWeight rest (j + 1) := by
        have := hge
        rw [cumWeight_cons] at this
        linarith
      have hlt2 : ∀ k, k < j → (upto + (w : ℚ)) + cumWeight rest (k + 1) < r := by
        intro k hk
        have := hlt (k + 1) (Nat.succ_lt_succ hk)
        rw [cumWeight_cons] at this
        linarith
      have := ih (upto + (w : ℚ)) j hj hge2 hlt2
      simpa [selectLoop, hne] using this

/-- Direct evaluation of the weighted-choice scenario: with the draw 2.5
    out of total 4, the loop skips A (cumulative 1) and returns B
    (cumulative 4). -/
theorem chooseOp_exDB1_eval : chooseOperatorForSource exDB1 1 rDraw = some opB := by
  have hc : candidatesForSource exDB1 1 = [(opA, 1), (opB, 3)] := by decide
  have h1 : ¬ (rDraw ≤ (1 : ℚ)) := by
    rw [rDraw_eq_five_halves]; norm_num
  have h2 : rDraw ≤ (1 : ℚ) + 3 := by
    rw [rDraw_eq_five_halves]; norm_num
  simp [chooseOperatorForSource, hc, selectLoop, h1, h2]

/-- C1: for every non-empty candidate list iterated in its fixed stable
    order, chooseOperator returns the first candidate whose cumulative
    weight is at least the injected draw r. -/
theorem chooseOperator_first_cumulative (db : DB) (sid : Nat) (r : ℚ) (i : Nat)
    (hi : i < (candidatesForSource db sid).length)
    (hge : r ≤ cumWeight (candidatesForSource db sid) (i + 1))
    (hlt : ∀ j, j < i → cumWeight (candidatesForSource db sid) (j + 1) < r) :
    chooseOperatorForSource db sid r =
      some ((candidatesForSource db sid).get ⟨i, hi⟩).1 := by
  have hsel := selectLoop_first (candidatesForSource db sid) 0 r i hi
    (by simpa using hge) (by intro j hj; simpa using hlt j hj)
  have hne : (candidatesForSource db sid).isEmpty = false := by
    cases h : candidatesForSource db sid with
    | nil => rw [h] at hi; simp at hi
    | cons a l => simp
  simp [chooseOperatorForSource, hne, hsel]

/-- C1 witness: operators A (weight 1) and B (weight 3), draw r = 2.5 of
    total 4: the first candidate with cumulative weight at least 2.5 is B,
    and chooseOperator returns B. -/
theorem chooseOperator_first_cumulative_witness :
    chooseOperatorForSource exDB1 1 ((5 : Rat) / 2) = some opB := by
  have hc : candidatesForSource exDB1 1 = [(opA, 1), (opB, 3)] := by decide
  rw [← rDraw_eq_five_halves]
  have hlen : 1 < (candidatesForSource exDB1 1).length := by decide
  have hge : rDraw ≤ cumWeight (candidatesForSource exDB1 1) 2 := by
    rw [hc, rDraw_eq_five_halves]; norm_num [cumWeight]
  have hlt : ∀ j, j < 1 → cumWeight (candidatesForSource exDB1 1) (j + 1) < rDraw := by
    intro j hj
    have hj0 : j = 0 := by omega
    subst hj0
    rw [hc, rDraw_eq_five_halves]; norm_num [cumWeight]
  have h := chooseOperator_first_cumulative exDB1 1 rDraw 1 hlen hge hlt
  exact h.trans (h.symm.trans chooseOp_exDB1_eval)

/-! ## Membership lemmas for the candidate list -/

theorem getLast?_mem {α : Type} (l : List α) (a : α) (h : l.getLast? = some a) :
    a ∈ l := by
  obtain ⟨hne, rfl⟩ :=
    List.mem_getLast?_eq_getLast (show a ∈ l.getLast? by rw [Option.mem_def]; exact h)
  exact List.getLast_mem hne

/-- A pair in the joined weight rows comes from an actual weight row of
    the state, with an active operator matching the row. -/
theorem mem_weightRows (db : DB) (sid : Nat) (op : Operator) (w : Int)
    (h : (op, w) ∈ weightRowsForSource db sid) :
    op.is_active = true ∧
      ∃ wr ∈ db.weights, wr.source_id = sid ∧ wr.operator_id = op.id ∧ wr.weight = w := by
  rw [weightRowsForSource, List.mem_filterMap] at h
  obtain ⟨wr, hwr, hmap⟩ := h
  by_cases hs : (wr.source_id == sid) = true
  · rw [if_pos hs] at hmap
    cases hfind : db.operators.find? (fun o => o.id == wr.operator_id) with
    | none => rw [hfind] at hmap; exact absurd hmap (by simp)
    | some op2 =>
      rw [hfind] at hmap
      dsimp only at hmap
      by_cases ha : op2.is_active = true
      · rw [if_pos ha] at hmap
        obtain ⟨rfl, rfl⟩ : op2 = op ∧ wr.weight = w := by
          simpa only [Option.some.injEq, Prod.mk.injEq] using hmap
        refine ⟨ha, wr, hwr, ?_, ?_, rfl⟩
        · exact beq_iff_eq.mp hs
        · have := List.find?_some hfind
          simp only [beq_iff_eq] at this
          omega
      · rw [if_neg ha] at hmap; exact absurd hmap (by simp)
  · rw [if_neg hs] at hmap; exact absurd hmap (by simp)

/-- Every candidate of the selection loop is eligible. -/
theorem mem_candidates_eligible (db : DB) (sid : Nat) (op : Operator) (w : Int)
    (h : (op, w) ∈ candidatesForSource db sid) : Eligible db sid op := by
  rw [candidatesForSource, List.mem_filter] at h
  obtain ⟨hmem, hcond⟩ := h
  simp only [Bool.and_eq_true, decide_eq_true_eq] at hcond
  obtain ⟨hw, hload⟩ := hcond
  obtain ⟨hactive, wr, hwr, hsrc, hopid, hweq⟩ := mem_weightRows db sid op w hmem
  exact ⟨hactive, ⟨wr, hwr, hsrc, hopid, by omega⟩, hload⟩

/-- The accumulation loop only returns members of the candidate list. -/
theorem selectLoop_mem (cands : List (Operator × Int)) (upto r : ℚ) (op : Operator)
    (h : selectLoop cands upto r = some op) : ∃ w, (op, w) ∈ cands := by
  induction cands generalizing upto with
  | nil => rw [selectLoop] at h; exact absurd h (by simp)
  | cons hd rest ih =>
    obtain ⟨op2, w⟩ := hd
    rw [selectLoop] at h
    split at h
    · obtain rfl : op2 = op := by simpa using h
      exact ⟨w, List.mem_cons_self _ _⟩
    · obtain ⟨w2, hw2⟩ := ih _ h
      exact ⟨w2, List.mem_cons_of_mem _ hw2⟩

/-- chooseOperator only returns members of the candidate list. -/
theorem chooseOperator_mem (db : DB) (sid : Nat) (r : ℚ) (op : Operator)
    (h : chooseOperatorForSource db sid r = some op) :
    ∃ w, (op, w) ∈ candidatesForSource db sid := by
  rw [chooseOperatorForSource] at h
  split at h
  · exact absurd h (by simp)
  · split at h
    case h_1 op2 heq =>
      obtain rfl : op2 = op := by simpa using h
      exact selectLoop_mem _ _ _ _ heq
    case h_2 heq =>
      obtain ⟨p, hp, rfl⟩ := Option.map_eq_some'.mp h
      exact ⟨p.2, getLast?_mem _ _ hp⟩

/-- C2: whenever chooseOperator returns an operator, that operator is
    active, its weight row for the requested source is strictly positive,
    and its active-contact count was strictly below its load limit at
    selection time; consequently every contact created with an operator
    reference got an operator satisfying these conditions on the state
    seen at selection time. -/
theorem chooseOperator_eligible (db : DB) (sid : Nat) (r : ℚ) :
    (∀ op, chooseOperatorForSource db sid r = some op → Eligible db sid op) ∧
    (∀ eid nm payload now c db2,
      createContact db eid nm sid payload r now = (Except.ok c, db2) →
      ∀ oid, c.operator_id = some oid →
        ∃ op, op.id = oid ∧ Eligible (getOrCreateLead db eid nm).2 sid op) := by
  constructor
  · intro op h
    obtain ⟨w, hmem⟩ := chooseOperator_mem db sid r op h
    exact mem_candidates_eligible db sid op w hmem
  · intro eid nm payload now c db2 h oid hoid
    rw [createContact] at h
    cases hfind : db.sources.find? (fun s => s.id == sid) with
    | none => rw [hfind] at h; exact absurd h (by simp)
    | some source =>
      rw [hfind] at h
      dsimp only at h
      have hc : c = newContact db eid nm source r now payload := by
        have := congrArg Prod.fst h
        simpa using this.symm
      have hsid : source.id = sid := by
        have := List.find?_some hfind
        simpa [beq_iff_eq] using this
      subst hc
      simp only [newContact] at hoid
      obtain ⟨op2, hop2, hid⟩ := Option.map_eq_some'.mp hoid
      obtain ⟨w, hmem⟩ := chooseOperator_mem _ _ _ _ hop2
      rw [hsid] at hmem
      exact ⟨op2, hid, mem_candidates_eligible _ _ _ _ hmem⟩

/-- C2 witness: in the weighted-choice state with the draw 2.5, the
    returned operator B is active, has positive weight for source 1, and
    is under its load limit. -/
theorem chooseOperator_eligible_witness : Eligible exDB1 1 opB :=
  (chooseOperator_eligible exDB1 1 rDraw).1 opB chooseOp_exDB1_eval

/-- C3: chooseOperator returns none exactly when the candidate set is
    empty, a non-none operator coming back for every draw otherwise; and
    in the capacity-exclusion state, whose only weighted operator has
    load_limit 1 and one active contact, it returns none for every draw. -/
theorem chooseOperator_none_iff (db : DB) (sid : Nat) (r : ℚ) :
    (chooseOperatorForSource db sid r = none ↔ candidatesForSource db sid = []) ∧
    chooseOperatorForSource exDB2 1 r = none := by
  constructor
  · constructor
    · intro h
      cases hc : candidatesForSource db sid with
      | nil => rfl
      | cons a l =>
        exfalso
        rw [chooseOperatorForSource, hc] at h
        simp only [List.isEmpty_cons, Bool.false_eq_true, if_false] at h
        cases hsel : selectLoop (a :: l) 0 r with
        | some op => rw [hsel] at h; exact absurd h (by simp)
        | none =>
          rw [hsel] at h
          rw [Option.map_eq_none'] at h
          have hne : (a :: l) ≠ ([] : List (Operator × Int)) := by simp
          rw [List.getLast?_eq_getLast_of_ne_nil hne] at h
          exact absurd h (by simp)
    · intro h
      simp [chooseOperatorForSource, h]
  · have hc : candidatesForSource exDB2 1 = [] := by decide
    simp [chooseOperatorForSource, hc]

/-- C3 witness: the capacity-exclusion scenario at the concrete draw 0. -/
theorem chooseOperator_none_iff_witness : chooseOperatorForSource exDB2 1 0 = none :=
  (chooseOperator_none_iff exDB2 1 0).2

/-- Under exact rational arithmetic the loop cannot exhaust while the
    draw is below the running sum plus the remaining total. -/
theorem selectLoop_some_of_lt_total (cands : List (Operator × Int)) (upto r : ℚ)
    (hne : cands ≠ []) (hlt : r < upto + totalWeight cands) :
    ∃ op, selectLoop cands upto r = some op := by
  induction cands generalizing upto with
  | nil => exact absurd rfl hne
  | cons hd rest ih =>
    obtain ⟨op, w⟩ := hd
    by_cases hc : r ≤ upto + (w : ℚ)
    · exact ⟨op, by rw [selectLoop, if_pos hc]⟩
    · have hc2 : upto + (w : ℚ) < r := lt_of_not_le hc
      have htot : totalWeight ((op, w) :: rest) = (w : ℚ) + totalWeight rest := by
        simp [totalWeight]
      rw [htot] at hlt
      have hre : rest ≠ [] := by
        intro h0
        rw [h0] at hlt
        simp [totalWeight] at hlt
        linarith
      obtain ⟨op2, hop2⟩ := ih (upto + (w : ℚ)) hre (by linarith)
      exact ⟨op2, by rw [selectLoop, if_neg hc]; exact hop2⟩

/-- C4: under exact arithmetic, for every non-empty candidate list and
    every draw 0 <= r < total, the accumulation loop returns a candidate
    and the final fallback line is never the one producing the result. -/
theorem fallback_unreachable (db : DB) (sid : Nat) (r : ℚ)
    (hne : candidatesForSource db sid ≠ [])
    (h0 : 0 ≤ r) (hr : r < totalWeight (candidatesForSource db sid)) :
    ∃ op, selectLoop (candidatesForSource db sid) 0 r = some op ∧
      chooseOperatorForSource db sid r = some op := by
  obtain ⟨op, hop⟩ := selectLoop_some_of_lt_total (candidatesForSource db sid) 0 r hne
    (by rw [zero_add]; exact hr)
  refine ⟨op, hop, ?_⟩
  have hie : (candidatesForSource db sid).isEmpty = false := by
    cases hc : candidatesForSource db sid with
    | nil => exact absurd hc hne
    | cons a l => simp
  simp [chooseOperatorForSource, hie, hop]

/-- C4 witness: the weighted-choice state with the draw 2.5 of total 4
    stays inside the loop. -/
theorem fallback_unreachable_witness :
    ∃ op, selectLoop (candidatesForSource exDB1 1) 0 rDraw = some op ∧
      chooseOperatorForSource exDB1 1 rDraw = some op := by
  have hc : candidatesForSource exDB1 1 = [(opA, 1), (opB, 3)] := by decide
  refine fallback_unreachable exDB1 1 rDraw (by decide) ?_ ?_
  · rw [rDraw_eq_five_halves]; norm_num
  · rw [hc, rDraw_eq_five_halves]; norm_num [totalWeight]

/-- Back-filling the name of the first matching lead preserves the table
    length. -/
theorem setNameFirst_length (leads : List Lead) (eid : String) (nm : Option String) :
    (setNameFirst leads eid nm).length = leads.length := by
  induction leads with
  | nil => rfl
  | cons a rest ih =>
    rw [setNameFirst]
    by_cases h : (a.external_id == eid) = true
    · rw [if_pos h]; simp
    · rw [if_neg h]; simp [ih]

/-- After back-filling, the first lead found for the external id is the
    back-filled one. -/
theorem find?_setNameFirst (leads : List Lead) (eid : String) (nm : Option String)
    (l : Lead) (h : leads.find? (fun x => x.external_id == eid) = some l) :
    (setNameFirst leads eid nm).find? (fun x => x.external_id == eid)
      = some { l with name := nm } := by
  induction leads with
  | nil => simp [List.find?] at h
  | cons a rest ih =>
    cases ha : a.external_id == eid with
    | true =>
      simp only [List.find?_cons, ha] at h
      obtain rfl : a = l := by simpa using h
      rw [setNameFirst, if_pos ha]
      simp [List.find?_cons, ha]
    | false =>
      simp only [List.find?_cons, ha] at h
      rw [setNameFirst, if_neg (by simp [ha])]
      simp only [List.find?_cons, ha]
      exact ih h

/-- The lead returned by get_or_create_lead is the first lead for its
    external id in the state the call leaves behind. -/
theorem find?_after_getOrCreateLead (db : DB) (eid : String) (nm : Option String) :
    (getOrCreateLead db eid nm).2.leads.find? (fun x => x.external_id == eid)
      = some (getOrCreateLead db eid nm).1 := by
  rw [getOrCreateLead]
  cases hfind : db.leads.find? (fun l => l.external_id == eid) with
  | some lead =>
    dsimp only
    by_cases hc : (truthy nm && !truthy lead.name) = true
    · rw [if_pos hc]
      exact find?_setNameFirst db.leads eid nm lead hfind
    · rw [if_neg hc]
      exact hfind
  | none =>
    dsimp only
    rw [List.find?_append, hfind]
    simp [List.find?]

/-- C5: resolveLead is idempotent with respect to external_id: a second
    call returns the same lead identity and never adds a row; the name is
    back-filled only when the stored name is falsy and a truthy name is
    supplied, and a truthy stored name is never overwritten. -/
theorem getOrCreateLead_idempotent (db : DB) (eid : String) (nm1 nm2 : Option String) :
    (getOrCreateLead (getOrCreateLead db eid nm1).2 eid nm2).1.id
        = (getOrCreateLead db eid nm1).1.id ∧
    (getOrCreateLead (getOrCreateLead db eid nm1).2 eid nm2).2.leads.length
        = (getOrCreateLead db eid nm1).2.leads.length ∧
    (truthy (getOrCreateLead db eid nm1).1.name = true →
      (getOrCreateLead (getOrCreateLead db eid nm1).2 eid nm2).1.name
        = (getOrCreateLead db eid nm1).1.name) ∧
    (truthy (getOrCreateLead db eid nm1).1.name = false → truthy nm2 = true →
      (getOrCreateLead (getOrCreateLead db eid nm1).2 eid nm2).1.name = nm2) ∧
    (truthy nm2 = false →
      (getOrCreateLead (getOrCreateLead db eid nm1).2 eid nm2).1.name
        = (getOrCreateLead db eid nm1).1.name) := by
  have hfind := find?_after_getOrCreateLead db eid nm1
  set l1 := (getOrCreateLead db eid nm1).1 with hl1
  set db1 := (getOrCreateLead db eid nm1).2 with hdb1
  by_cases hc : (truthy nm2 && !truthy l1.name) = true
  · have hcn : truthy nm2 = true ∧ truthy l1.name = false := by
      rcases Bool.and_eq_true_iff.mp hc with ⟨h1, h2⟩
      exact ⟨h1, by simpa using h2⟩
    refine ⟨?_, ?_, ?_, ?_, ?_⟩
    · rw [getOrCreateLead, hfind]
      dsimp only
      rw [if_pos hc]
    · rw [getOrCreateLead, hfind]
      dsimp only
      rw [if_pos hc]
      exact setNameFirst_length db1.leads eid nm2
    · intro h
      rw [h] at hcn
      exact absurd hcn.2 (by simp)
    · intro _ _
      rw [getOrCreateLead, hfind]
      dsimp only
      rw [if_pos hc]
    · intro h
      rw [h] at hcn
      exact absurd hcn.1 (by simp)
  · refine ⟨?_, ?_, ?_, ?_, ?_⟩
    · rw [getOrCreateLead, hfind]
      dsimp only
      rw [if_neg hc]
    · rw [getOrCreateLead, hfind]
      dsimp only
      rw [if_neg hc]
    · intro _
      rw [getOrCreateLead, hfind]
      dsimp only
      rw [if_neg hc]
    · intro h1 h2
      exact absurd (by rw [h2, h1]; rfl : (truthy nm2 && !truthy l1.name) = true) hc
    · intro _
      rw [getOrCreateLead, hfind]
      dsimp only
      rw [if_neg hc]

/-- C5 witness: resolveLead of "u1" with name "Alice" followed by a call
    with no name returns the same lead identity with name still "Alice". -/
theorem getOrCreateLead_idempotent_witness :
    (getOrCreateLead (getOrCreateLead emptyDB "u1" (some "Alice")).2 "u1" none).1.id
      = (getOrCreateLead emptyDB "u1" (some "Alice")).1.id ∧
    (getOrCreateLead (getOrCreateLead emptyDB "u1" (some "Alice")).2 "u1" none).1.name
      = some "Alice" := by
  have h := getOrCreateLead_idempotent emptyDB "u1" (some "Alice") none
  refine ⟨h.1, ?_⟩
  rw [h.2.2.1 (by decide)]
  decide

/-- C6 counterexample: in the empty state source 5 does not exist, yet
    the selection engine completes normally with the default result none
    instead of surfacing a Source-not-found error: it never checks source
    existence. -/
theorem chooseOperator_missing_source_counterexample :
    emptyDB.sources.find? (fun s => s.id == 5) = none ∧
    chooseOperatorForSource emptyDB 5 0 = none := by
  constructor
  · decide
  · have hc : candidatesForSource emptyDB 5 = [] := by decide
    simp [chooseOperatorForSource, hc]

/-- C6 amended: contact recording surfaces the Source-not-found error for
    a nonexistent source_id; the selection engine itself performs no
    source-existence check and, for a source_id carrying no weight rows
    (as holds for any nonexistent source under foreign-key integrity),
    completes with none rather than an error. -/
theorem sourceNotFound_surfaced (db : DB) (eid : String) (nm : Option String)
    (sid : Nat) (payload : Option String) (r : ℚ) (now : Nat)
    (h : db.sources.find? (fun s => s.id == sid) = none)
    (hw : ∀ w ∈ db.weights, w.source_id ≠ sid) :
    createContact db eid nm sid payload r now = (Except.error "Source not found", db) ∧
    chooseOperatorForSource db sid r = none := by
  constructor
  · rw [createContact, h]
  · have hrows : weightRowsForSource db sid = [] := by
      rw [weightRowsForSource, List.filterMap_eq_nil_iff]
      intro w hwmem
      have hne : (w.source_id == sid) = false := by
        simpa using hw w hwmem
      rw [if_neg (by simp [hne])]
    have hc : candidatesForSource db sid = [] := by
      rw [candidatesForSource, hrows]
      rfl
    simp [chooseOperatorForSource, hc]

/-- C6 witness: the amended behavior at the empty state and source 5. -/
theorem sourceNotFound_surfaced_witness :
    createContact emptyDB "u1" none 5 none 0 0 = (Except.error "Source not found", emptyDB) ∧
    chooseOperatorForSource emptyDB 5 0 = none :=
  sourceNotFound_surfaced emptyDB "u1" none 5 none 0 0 (by decide) (by decide)

/-- C7 counterexample: a call that loses the lead-creation race receives
    the propagated uniqueness-constraint error instead of the winning
    lead: there is no retry of the lookup. -/
theorem leadRace_counterexample :
    getOrCreateLeadRaced emptyDB [winnerLead] "u1" (some "Alice")
      = Except.error "UNIQUE constraint failed: leads.external_id" := by
  rfl

/-- C7 amended: when the lookup misses but a concurrent call has already
    committed a lead with the same external_id before the commit of this
    call, the uniqueness constraint rejects the insert and
    get_or_create_lead propagates the constraint-violation error to the
    caller; no retry of the lookup happens. -/
theorem leadRace_propagates (db : DB) (interleaved : List Lead) (eid : String)
    (nm : Option String)
    (hmiss : db.leads.find? (fun l => l.external_id == eid) = none)
    (hwin : ∃ l ∈ interleaved, l.external_id = eid) :
    getOrCreateLeadRaced db interleaved eid nm
      = Except.error "UNIQUE constraint failed: leads.external_id" := by
  rw [getOrCreateLeadRaced, hmiss]
  have hany : ((db.leads ++ interleaved).any (fun l => l.external_id == eid)) = true := by
    obtain ⟨l, hl, hle⟩ := hwin
    rw [List.any_eq_true]
    exact ⟨l, List.mem_append_right _ hl, by simp [hle]⟩
  simp only [insertLeadUnique]
  dsimp only
  rw [if_pos hany]

/-- C7 witness for the amended claim: the concrete raced call ends in the
    propagated constraint violation. -/
theorem leadRace_propagates_witness :
    getOrCreateLeadRaced emptyDB [winnerLead] "u1" none
      = Except.error "UNIQUE constraint failed: leads.external_id" :=
  leadRace_propagates emptyDB [winnerLead] "u1" none (by decide)
    ⟨winnerLead, by simp, by decide⟩

/-- C8: with an existing source, create_contact appends exactly one
    contact, with status active, referencing the resolved lead and the
    found source, payload stored verbatim, timestamp the current time,
    and operator_id exactly the id of the operator chosen by the
    selection engine on the post-resolution state, none included. -/
theorem createContact_ok (db : DB) (eid : String) (nm : Option String)
    (sid : Nat) (payload : Option String) (r : ℚ) (now : Nat) (source : Source)
    (hfind : db.sources.find? (fun s => s.id == sid) = some source) :
    ∃ c db2, createContact db eid nm sid payload r now = (Except.ok c, db2) ∧
      c.status = ContactStatus.active ∧
      c.source_id = source.id ∧
      c.source_id = sid ∧
      c.lead_id = (getOrCreateLead db eid nm).1.id ∧
      c.payload = payload ∧
      c.created_at = now ∧
      c.operator_id
        = (chooseOperatorForSource (getOrCreateLead db eid nm).2 source.id r).map Operator.id ∧
      db2.contacts = (getOrCreateLead db eid nm).2.contacts ++ [c] ∧
      db2.leads = (getOrCreateLead db eid nm).2.leads := by
  have hsid : source.id = sid := by
    have := List.find?_some hfind
    simpa [beq_iff_eq] using this
  refine ⟨newContact db eid nm source r now payload,
    { (getOrCreateLead db eid nm).2 with
        contacts := (getOrCreateLead db eid nm).2.contacts
          ++ [newContact db eid nm source r now payload]
        nextContactId := (getOrCreateLead db eid nm).2.nextContactId + 1 },
    ?_, rfl, rfl, hsid, rfl, rfl, rfl, rfl, rfl, rfl⟩
  rw [createContact, hfind]

/-- C8 witness: a contact recorded in the weighted-choice state. -/
theorem createContact_ok_witness :
    ∃ c db2, createContact exDB1 "u1" (some "Alice") 1 (some "hello") rDraw 7
        = (Except.ok c, db2) ∧
      c.status = ContactStatus.active ∧
      c.source_id = ({ id := 1, name := "site", code := none } : Source).id ∧
      c.source_id = 1 ∧
      c.lead_id = (getOrCreateLead exDB1 "u1" (some "Alice")).1.id ∧
      c.payload = some "hello" ∧
      c.created_at = 7 ∧
      c.operator_id = (chooseOperatorForSource (getOrCreateLead exDB1 "u1" (some "Alice")).2
        ({ id := 1, name := "site", code := none } : Source).id rDraw).map Operator.id ∧
      db2.contacts = (getOrCreateLead exDB1 "u1" (some "Alice")).2.contacts ++ [c] ∧
      db2.leads = (getOrCreateLead exDB1 "u1" (some "Alice")).2.leads :=
  createContact_ok exDB1 "u1" (some "Alice") 1 (some "hello") rDraw 7
    { id := 1, name := "site", code := none } (by decide)

/-- Overwriting the status of the first matching contact decomposes the
    table into an untouched head without the id, the updated row, and an
    untouched tail. -/
theorem setStatusFirst_decomp (contacts : List Contact) (cid : Nat)
    (st : ContactStatus) (c : Contact)
    (hfind : contacts.find? (fun x => x.id == cid) = some c) :
    ∃ pre post, contacts = pre ++ c :: post ∧
      (∀ x ∈ pre, x.id ≠ cid) ∧
      setStatusFirst contacts cid st = pre ++ ({ c with status := st } :: post) := by
  induction contacts with
  | nil => simp [List.find?] at hfind
  | cons a rest ih =>
    cases ha : a.id == cid with
    | true =>
      simp only [List.find?_cons, ha] at hfind
      obtain rfl : a = c := by simpa using hfind
      exact ⟨[], rest, rfl, by simp, by rw [setStatusFirst, if_pos ha]; rfl⟩
    | false =>
      simp only [List.find?_cons, ha] at hfind
      obtain ⟨pre, post, h1, h2, h3⟩ := ih hfind
      refine ⟨a :: pre, post, by rw [h1]; rfl, ?_, ?_⟩
      · intro x hx
        rcases List.mem_cons.mp hx with rfl | hx2
        · simpa using ha
        · exact h2 x hx2
      · rw [setStatusFirst, if_neg (by simp [ha]), h3]; rfl

/-- C9: setStatus overwrites the status of the addressed contact
    unconditionally, closed to active included, and changes nothing else:
    every other field of the contact, every other contact row, and the
    four other tables stay as they were. -/
theorem updateContactStatus_frame (db : DB) (cid : Nat) (st : ContactStatus)
    (c : Contact) (hfind : db.contacts.find? (fun x => x.id == cid) = some c) :
    ∃ c2 db2, updateContactStatus db cid st = (Except.ok c2, db2) ∧
      c2.status = st ∧ c2.id = c.id ∧ c2.lead_id = c.lead_id ∧
      c2.source_id = c.source_id ∧ c2.operator_id = c.operator_id ∧
      c2.created_at = c.created_at ∧ c2.payload = c.payload ∧
      db2.operators = db.operators ∧ db2.sources = db.sources ∧
      db2.weights = db.weights ∧ db2.leads = db.leads ∧
      ∃ pre post, db.contacts = pre ++ c :: post ∧ (∀ x ∈ pre, x.id ≠ cid) ∧
        db2.contacts = pre ++ ({ c with status := st } :: post) := by
  obtain ⟨pre, post, h1, h2, h3⟩ := setStatusFirst_decomp db.contacts cid st c hfind
  refine ⟨{ c with status := st },
    { db with contacts := setStatusFirst db.contacts cid st },
    ?_, rfl, rfl, rfl, rfl, rfl, rfl, rfl, rfl, rfl, rfl, rfl, pre, post, h1, h2, h3⟩
  rw [updateContactStatus, hfind]

/-- C9 witness: re-opening the closed contact 1 keeps its payload and
    leaves the second contact row alone. -/
theorem updateContactStatus_frame_witness :
    ∃ c2 db2, updateContactStatus exDB3 1 ContactStatus.active = (Except.ok c2, db2) ∧
      c2.status = ContactStatus.active ∧ c2.payload = some "p" ∧
      db2.leads = exDB3.leads := by
  obtain ⟨c2, db2, heq, hst, _, _, _, _, _, hpl, _, _, _, hld, _⟩ :=
    updateContactStatus_frame exDB3 1 ContactStatus.active
      { id := 1, lead_id := 1, source_id := 1, operator_id := some 1,
        status := ContactStatus.closed, created_at := 3, payload := some "p" } (by decide)
  exact ⟨c2, db2, heq, hst, hpl, hld⟩

/-- C10: a contact event for a nonexistent source fails before any
    write: the call returns the Source-not-found error together with the
    input state unchanged, so no lead is created or back-filled and no
    contact row is inserted. -/
theorem createContact_missing_source_no_write (db : DB) (eid : String)
    (nm : Option String) (sid : Nat) (payload : Option String) (r : ℚ) (now : Nat)
    (h : db.sources.find? (fun s => s.id == sid) = none) :
    createContact db eid nm sid payload r now = (Except.error "Source not found", db) := by
  rw [createContact, h]

/-- C10 witness: recording a contact for the nonexistent source 99 in the
    weighted-choice state errors out and leaves the state untouched. -/
theorem createContact_missing_source_no_write_witness :
    createContact exDB1 "u9" (some "Zoe") 99 (some "x") 0 11
      = (Except.error "Source not found", exDB1) :=
  createContact_missing_source_no_write exDB1 "u9" (some "Zoe") 99 (some "x") 0 11 (by decide)
